import Mathlib

/-!
Verification of the A2A JSON-RPC dispatcher (`app/agent/a2a_handler.py`,
`app/schemas/a2a_models.py`, `app/services/a2a_service.py`).

The embedding models decoded JSON payloads as an inductive `Json` value
(numbers as integers: no claim involves fractional numbers), pydantic
model validation as explicit parse functions returning `Except`, Python
exceptions raised by handlers as an explicit `HandlerOutcome`, and the
dispatcher (`A2AHandler.handle_request`, `_process_single_request`,
`handle_notification`, `_process_single_notification`) as total functions
from the decoded payload to the returned value (plus, for notifications,
an observable trace of log events and handler invocations).
-/

/-- A decoded JSON value, as produced by `await request.json()`.
Numbers are modelled as integers (no claim involves fractional values);
objects are key/value lists in insertion order, keys unique. -/
inductive Json where
  | null
  | bool (b : Bool)
  | num (n : Int)
  | str (s : String)
  | arr (elems : List Json)
  | obj (members : List (String × Json))

/-- Key lookup in a decoded JSON object, mirroring Python dict access
(keys are unique in a decoded object, so first match suffices). -/
def Json.lookupKey : List (String × Json) → String → Option Json
  | [], _ => none
  | (k, v) :: rest, key => if k = key then some v else Json.lookupKey rest key

/-- Python truthiness test `not body` on a decoded JSON value:
`None`, `False`, `0`, `""`, `[]` and `{}` are falsy. -/
def Json.falsy : Json → Bool
  | .null => true
  | .bool b => !b
  | .num n => n == 0
  | .str s => s.isEmpty
  | .arr elems => elems.isEmpty
  | .obj members => members.isEmpty

/-- Length of a JSON array, `none` on any non-array value. -/
def Json.arrayLength : Json → Option Nat
  | .arr elems => some elems.length
  | _ => none

/-- Field access on a JSON object, `none` on any non-object value. -/
def Json.getKey : Json → String → Option Json
  | .obj members, key => Json.lookupKey members key
  | _, _ => none

/-- The `ErrorType` enumeration of `a2a_models.py`. -/
inductive ErrorType where
  | validation_error
  | not_found
  | unauthorized
  | forbidden
  | internal_error
  | bad_request
  | service_unavailable
deriving DecidableEq

/-- String value of each `ErrorType` member (it is a `str` enum). -/
def ErrorType.toStr : ErrorType → String
  | .validation_error => "validation_error"
  | .not_found => "not_found"
  | .unauthorized => "unauthorized"
  | .forbidden => "forbidden"
  | .internal_error => "internal_error"
  | .bad_request => "bad_request"
  | .service_unavailable => "service_unavailable"

/-- The `ErrorDetail` pydantic model: `type`, `message`, and the optional
`field`, `value`, `suggestion` fields. -/
structure ErrorDetail where
  type : ErrorType
  message : String
  field : Option String := none
  value : Option Json := none
  suggestion : Option String := none

/-- The `ErrorResponse` pydantic model: `success` (default `False`),
`error` (an `ErrorDetail`), and optional `meta`. -/
structure ErrorResponse where
  success : Bool := false
  error : ErrorDetail
  meta : Option Json := none

/-- Serialization of one optional field under `model_dump(exclude_none=True)`:
a `None` field is omitted, any other value is emitted under its key. -/
def dumpOpt (key : String) : Option Json → List (String × Json)
  | none => []
  | some v => [(key, v)]

/-- `ErrorDetail.model_dump(exclude_none=True)`: fields in declaration
order, `None`-valued optional fields omitted. -/
def ErrorDetail.dump (d : ErrorDetail) : Json :=
  .obj ([("type", .str d.type.toStr), ("message", .str d.message)]
    ++ dumpOpt "field" (d.field.map Json.str)
    ++ dumpOpt "value" d.value
    ++ dumpOpt "suggestion" (d.suggestion.map Json.str))

/-- `ErrorResponse.model_dump(exclude_none=True)`: fields in declaration
order; the nested `ErrorDetail` is dumped recursively. -/
def ErrorResponse.dump (r : ErrorResponse) : Json :=
  .obj ([("success", .bool r.success), ("error", r.error.dump)]
    ++ dumpOpt "meta" r.meta)

/-- `ErrorResponse.create(error_type, message, suggestion=...)` as invoked
by the dispatcher: `field` and `value` are never passed there (so default
to `None`), and `meta` defaults to `meta or {}`, the empty dict. -/
def ErrorResponse.create (t : ErrorType) (message : String) (suggestion : Option String) :
    ErrorResponse :=
  { error := { type := t, message := message, suggestion := suggestion },
    meta := some (.obj []) }

/-- `A2AResult.success(data).to_dict()`. -/
def successEnvelope (data : Json) : Json :=
  .obj [("success", .bool true), ("data", data)]

/-- `A2AResult.error(ErrorResponse.create(t, m, suggestion=s)).to_dict()`:
the `error` key holds the `model_dump` of the whole `ErrorResponse`. -/
def errorEnvelope (t : ErrorType) (message suggestion : String) : Json :=
  .obj [("success", .bool false),
        ("error", (ErrorResponse.create t message (some suggestion)).dump)]

/-- A request `id` after pydantic validation of `A2ARequest.id`
(`Optional[Union[str, int, None]]`): absent and JSON `null` both become
Python `None`. -/
inductive RpcId where
  | noId
  | strId (s : String)
  | intId (n : Int)
deriving DecidableEq

/-- Python-side value of an id when serialized back into a response:
`None` serializes as JSON `null`. -/
def RpcId.toJson : RpcId → Json
  | .noId => .null
  | .strId s => .str s
  | .intId n => .num n

/-- A validated `params` value: a named mapping (Python dict) or a
positional sequence (Python list). -/
inductive ReqParams where
  | named (kvs : List (String × Json))
  | positional (vs : List Json)

/-- Back to the wire form (used to state round-trip facts about inputs). -/
def ReqParams.toJson : ReqParams → Json
  | .named kvs => .obj kvs
  | .positional vs => .arr vs

/-- A validated `A2ARequest`: `jsonrpc` (default `"2.0"`), `method`
(required string), optional `params`, optional `id`. -/
structure A2ARequest where
  jsonrpc : String
  method : String
  params : Option ReqParams
  id : RpcId

/-- A validated `A2ANotification` (an `A2ARequest` whose `id` field is
constrained to `None`, so it carries no id at all). -/
structure A2ANotificationM where
  jsonrpc : String
  method : String
  params : Option ReqParams

/-- Validation of the `jsonrpc` field: absent defaults to `"2.0"`, a
string is accepted, anything else is a pydantic validation error. -/
def fieldJsonrpc (kvs : List (String × Json)) : Except String String :=
  match Json.lookupKey kvs "jsonrpc" with
  | none => .ok "2.0"
  | some (.str s) => .ok s
  | some _ => .error "jsonrpc: Input should be a valid string"

/-- Validation of the required `method` field: must be present and a
string. -/
def fieldMethod (kvs : List (String × Json)) : Except String String :=
  match Json.lookupKey kvs "method" with
  | some (.str s) => .ok s
  | some _ => .error "method: Input should be a valid string"
  | none => .error "method: Field required"

/-- Validation of the optional `params` field
(`Optional[Union[Dict, List]]`): absent or `null` becomes `None`; an
object becomes a named mapping; an array a positional sequence. -/
def fieldParams (kvs : List (String × Json)) : Except String (Option ReqParams) :=
  match Json.lookupKey kvs "params" with
  | none => .ok none
  | some .null => .ok none
  | some (.obj o) => .ok (some (.named o))
  | some (.arr a) => .ok (some (.positional a))
  | some _ => .error "params: Input should be a valid dictionary or list"

/-- Validation of the optional `id` field of `A2ARequest`: absent or
`null` becomes no id; strings and integers are kept; anything else
(booleans included, pydantic rejects `bool` for `int`) fails. -/
def fieldIdReq (kvs : List (String × Json)) : Except String RpcId :=
  match Json.lookupKey kvs "id" with
  | none => .ok .noId
  | some .null => .ok .noId
  | some (.str s) => .ok (.strId s)
  | some (.num n) => .ok (.intId n)
  | some _ => .error "id: Input should be a valid string or integer"

/-- Validation of the `id` field of `A2ANotification` (`id: None = None`):
only an absent or `null` id is admitted. -/
def fieldIdNotif (kvs : List (String × Json)) : Except String Unit :=
  match Json.lookupKey kvs "id" with
  | none => .ok ()
  | some .null => .ok ()
  | some _ => .error "id: Input should be None"

/-- `A2ARequest(**data)`: fails on any non-object `data` (Python raises
`TypeError` on `**`-unpacking a non-mapping) and on any field that fails
validation; pydantic collects field errors and raises if any field
failed, so sequential checking is observationally the same. -/
def parseA2ARequest : Json → Except String A2ARequest
  | .obj kvs =>
    match fieldJsonrpc kvs with
    | .error e => .error e
    | .ok jr =>
      match fieldMethod kvs with
      | .error e => .error e
      | .ok m =>
        match fieldParams kvs with
        | .error e => .error e
        | .ok p =>
          match fieldIdReq kvs with
          | .error e => .error e
          | .ok i => .ok ⟨jr, m, p, i⟩
  | _ => .error "request data is not an object"

/-- `A2ANotification(**data)`: as `parseA2ARequest` but the `id` field is
constrained to `None`. A validation failure on any field raises, so the
order in which fields are checked is unobservable; the `id` check is
placed first. -/
def parseA2ANotification : Json → Except String A2ANotificationM
  | .obj kvs =>
    match fieldIdNotif kvs with
    | .error e => .error e
    | .ok _ =>
      match fieldJsonrpc kvs with
      | .error e => .error e
      | .ok jr =>
        match fieldMethod kvs with
        | .error e => .error e
        | .ok m =>
          match fieldParams kvs with
          | .error e => .error e
          | .ok p => .ok ⟨jr, m, p⟩
  | _ => .error "notification data is not an object"

/-- The `A2ARequestContext` built from the inbound transport request:
its headers, HTTP method and URL. -/
structure A2ARequestContext where
  headers : List (String × String)
  method : String
  url : String
deriving DecidableEq

/-- A value passed to a handler: either plain JSON data from the request
`params`, or the injected `A2ARequestContext`. -/
inductive PVal where
  | json (j : Json)
  | context (c : A2ARequestContext)

/-- The argument shape a handler is invoked with: `handler(**params)` for
a named mapping, `handler(*params)` for a positional sequence. -/
inductive HParams where
  | named (kvs : List (String × PVal))
  | positional (vs : List PVal)

/-- Outcome of invoking a handler: a returned value, a raised `A2AError`
(protocol error, carrying code, message and data; its `str()` is
`"[code] message"`), or any other raised exception. -/
inductive HandlerOutcome where
  | ok (r : Json)
  | a2aError (code : Int) (message : String) (dat : Json)
  | exn (e : String)

/-- A registered handler: whether `"context"` occurs in its annotations
(a static property of its declared parameters, computed by the dispatcher
via `handler.__annotations__`), and its behaviour on an argument shape. -/
structure Handler where
  wantsContext : Bool
  call : HParams → HandlerOutcome

/-- The method registry `self._methods`, a dict from name to handler. -/
def Registry := List (String × Handler)

/-- Dict lookup `self._methods[name]` (with `name in self._methods`
modelled by the lookup succeeding). -/
def lookupMethod : Registry → String → Option Handler
  | [], _ => none
  | (k, h) :: rest, name => if k = name then some h else lookupMethod rest name

/-- `params['context'] = context` on an ordered mapping: overwrite the
value at an existing `"context"` key in place, else append the entry. -/
def setContextKey (c : A2ARequestContext) : List (String × PVal) → List (String × PVal)
  | [] => [("context", .context c)]
  | (k, v) :: rest =>
    if k = "context" then ("context", .context c) :: rest
    else (k, v) :: setContextKey c rest

/-- `params = a2a_request.params or {}`: Python `or` replaces any falsy
`params` (`None`, `{}`, `[]`) with the empty dict. -/
def normalizeParams : Option ReqParams → ReqParams
  | none => .named []
  | some (.positional []) => .named []
  | some p => p

/-- The parameter binder (lines 132-140 of `a2a_handler.py`): normalize
`params`, lift values, and when the handler declares a `context`
parameter inject the context (set into a named mapping, appended to a
positional sequence). -/
def bindParams (wantsContext : Bool) (c : A2ARequestContext) (p : Option ReqParams) : HParams :=
  match normalizeParams p with
  | .named kvs =>
    let vs := kvs.map (fun kv => (kv.1, PVal.json kv.2))
    .named (if wantsContext then setContextKey c vs else vs)
  | .positional xs =>
    let vs := xs.map PVal.json
    .positional (if wantsContext then vs ++ [PVal.context c] else vs)

/-- `A2AHandler._process_single_request`: parse the unit, resolve the
method, bind parameters, invoke, and map every outcome to an envelope.
A parse failure (pydantic `ValidationError`, or `TypeError` on a
non-mapping unit) is caught by the outermost `except Exception` of the
method and mapped to a generic internal error; an `A2AError` from the
handler maps to `bad_request` with `str(e)` as message; any other
handler exception maps to `internal_error` naming the method. -/
def processSingleRequest (reg : Registry) (ctx : A2ARequestContext) (data : Json) : Json :=
  match parseA2ARequest data with
  | .error _ =>
    errorEnvelope .internal_error "An error occurred while processing your request"
      "Please try again later"
  | .ok req =>
    match lookupMethod reg req.method with
    | none =>
      errorEnvelope .not_found ("Method '" ++ req.method ++ "' not found")
        "Check the method name and try again"
    | some h =>
      match h.call (bindParams h.wantsContext ctx req.params) with
      | .ok r =>
        successEnvelope (.obj [("jsonrpc", .str "2.0"), ("id", req.id.toJson), ("result", r)])
      | .a2aError code message _ =>
        errorEnvelope .bad_request ("[" ++ toString code ++ "] " ++ message)
          "Check your request parameters and try again"
      | .exn _ =>
        errorEnvelope .internal_error ("Error executing " ++ req.method)
          "Please try again later"

/-- `results[0] if len(results) == 1 else results`. -/
def unwrapSingleton : List Json → Json
  | [r] => r
  | rs => .arr rs

/-- The raw transport payload as seen after `await request.json()`:
either a JSON decode failure or a decoded value. -/
inductive RawBody where
  | decodeError
  | value (j : Json)

/-- `A2AHandler.handle_request`: a decode failure maps to `bad_request`;
an empty (falsy) body raises `ValueError("Empty request body")`, which
the generic `except Exception` (line 94) maps to a generic
`internal_error` envelope; a list is processed element by element in
order with the singleton result unwrapped; any other value is processed
as a single unit. -/
def handleRequest (reg : Registry) (ctx : A2ARequestContext) (raw : RawBody) : Json :=
  match raw with
  | .decodeError =>
    errorEnvelope .bad_request "Invalid JSON in request body"
      "Please check your request body is valid JSON"
  | .value body =>
    if body.falsy then
      errorEnvelope .internal_error "An error occurred while processing your request"
        "Please try again later"
    else
      match body with
      | .arr items => unwrapSingleton (items.map (processSingleRequest reg ctx))
      | _ => processSingleRequest reg ctx body

/-- An entry the dispatcher writes to the log. -/
inductive LogEvent where
  | warning (msg : String)
  | errorLog (msg : String)
  | exception (msg : String)
deriving DecidableEq

/-- Observable outcome of the notification path: the log entries written
and the handlers actually invoked (method name with bound arguments).
The Python functions return `None` in every case; this trace is what
distinguishes their behaviours. -/
structure NotifResult where
  log : List LogEvent
  invoked : List (String × HParams)

/-- Sequential composition of notification outcomes, in input order. -/
def NotifResult.append (a b : NotifResult) : NotifResult :=
  ⟨a.log ++ b.log, a.invoked ++ b.invoked⟩

/-- Outcome of processing a list of notification units one by one. -/
def combineNotifResults : List NotifResult → NotifResult
  | [] => ⟨[], []⟩
  | r :: rs => r.append (combineNotifResults rs)

/-- `A2AHandler._process_single_notification`: parse as
`A2ANotification`, resolve, bind and invoke; a parse failure is logged
and swallowed with no handler invoked, an unknown method logs a warning,
and a raising handler (of any exception, `A2AError` included) is logged
and swallowed after the invocation. -/
def processSingleNotification (reg : Registry) (ctx : A2ARequestContext) (data : Json) :
    NotifResult :=
  match parseA2ANotification data with
  | .error e => ⟨[.exception ("Error processing notification: " ++ e)], []⟩
  | .ok n =>
    match lookupMethod reg n.method with
    | none => ⟨[.warning ("Notification method not found: " ++ n.method)], []⟩
    | some h =>
      let bp := bindParams h.wantsContext ctx n.params
      match h.call bp with
      | .ok _ => ⟨[], [(n.method, bp)]⟩
      | .a2aError _ _ _ => ⟨[.exception ("Error in notification handler " ++ n.method)], [(n.method, bp)]⟩
      | .exn _ => ⟨[.exception ("Error in notification handler " ++ n.method)], [(n.method, bp)]⟩

/-- `A2AHandler.handle_notification`: a decode failure is logged; an
empty (falsy) body logs a warning and returns silently; a list is
processed element by element; any other value as a single unit. The
function never returns a value and never raises. -/
def handleNotification (reg : Registry) (ctx : A2ARequestContext) (raw : RawBody) :
    NotifResult :=
  match raw with
  | .decodeError => ⟨[.errorLog "Invalid JSON in notification"], []⟩
  | .value data =>
    if data.falsy then ⟨[.warning "Received empty notification"], []⟩
    else
      match data with
      | .arr items => combineNotifResults (items.map (processSingleNotification reg ctx))
      | _ => processSingleNotification reg ctx data

/-- `A2AService.ping`: a zero-parameter handler returning a fixed dict.
Invoking it with any arguments raises `TypeError`. -/
def pingHandler : Handler where
  wantsContext := false
  call p :=
    match p with
    | .named [] =>
      .ok (.obj [("status", .str "pong"), ("timestamp", .str "2024-01-01T00:00:00Z"),
                 ("agent", .str "AI Code Reviewer")])
    | .positional [] =>
      .ok (.obj [("status", .str "pong"), ("timestamp", .str "2024-01-01T00:00:00Z"),
                 ("agent", .str "AI Code Reviewer")])
    | _ => .exn "TypeError"

/-- `A2AService.echo(message)`: returns `{"echo": message, "length":
len(message)}`. Modelled on string messages, the only values for which
`len` is meaningful here; any other argument shape raises. -/
def echoHandler : Handler where
  wantsContext := false
  call p :=
    match p with
    | .named [("message", .json (.str m))] =>
      .ok (.obj [("echo", .str m), ("length", .num m.length)])
    | .positional [.json (.str m)] =>
      .ok (.obj [("echo", .str m), ("length", .num m.length)])
    | _ => .exn "TypeError"

/-- The pure core methods registered by `A2AService._register_methods`.
The LLM-backed and task methods also registered there are opaque
external capabilities (spec scope, section 1) and are not needed by any
claim; registering them would only extend this list. -/
def coreRegistry : Registry :=
  [("ping", pingHandler), ("echo", echoHandler)]

/-- A handler raising `A2AError(7, "boom")`, used to exercise the
protocol-error path of the dispatcher. -/
def boomHandler : Handler where
  wantsContext := false
  call _ := .a2aError 7 "boom" .null

/-- A registry exposing `boomHandler` under method name `"m"`. -/
def boomRegistry : Registry := [("m", boomHandler)]

/-- A concrete transport context for witnesses and counterexamples. -/
def defaultCtx : A2ARequestContext :=
  ⟨[("host", "localhost")], "POST", "http://localhost/a2a"⟩

def requestJson (m : String) (p : Option ReqParams) (x : RpcId) : Json :=
  .obj ([("jsonrpc", Json.str "2.0"), ("method", Json.str m)]
    ++ (match p with
        | none => []
        | some q => [("params", q.toJson)])
    ++ [("id", x.toJson)])

theorem parse_requestJson (m : String) (p : Option ReqParams) (x : RpcId) :
    parseA2ARequest (requestJson m p x) = .ok ⟨"2.0", m, p, x⟩ := by
  rcases p with _ | q
  · cases x <;> rfl
  · cases q <;> cases x <;> rfl

theorem processSingleRequest_ok (reg : Registry) (ctx : A2ARequestContext)
    (data : Json) (req : A2ARequest) (h : Handler) (r : Json)
    (hp : parseA2ARequest data = .ok req)
    (hm : lookupMethod reg req.method = some h)
    (hc : h.call (bindParams h.wantsContext ctx req.params) = .ok r) :
    processSingleRequest reg ctx data
      = successEnvelope (.obj [("jsonrpc", .str "2.0"), ("id", req.id.toJson), ("result", r)]) := by
  unfold processSingleRequest
  simp only [hp, hm, hc]

theorem processSingleRequest_parse_error (reg : Registry) (ctx : A2ARequestContext)
    (data : Json) (e : String) (hp : parseA2ARequest data = .error e) :
    processSingleRequest reg ctx data
      = errorEnvelope .internal_error "An error occurred while processing your request"
          "Please try again later" := by
  unfold processSingleRequest
  simp only [hp]

theorem processSingleRequest_not_found (reg : Registry) (ctx : A2ARequestContext)
    (data : Json) (req : A2ARequest)
    (hp : parseA2ARequest data = .ok req)
    (hm : lookupMethod reg req.method = none) :
    processSingleRequest reg ctx data
      = errorEnvelope .not_found ("Method '" ++ req.method ++ "' not found")
          "Check the method name and try again" := by
  unfold processSingleRequest
  simp only [hp, hm]

theorem processSingleRequest_a2aError (reg : Registry) (ctx : A2ARequestContext)
    (data : Json) (req : A2ARequest) (h : Handler) (code : Int) (msg : String) (dat : Json)
    (hp : parseA2ARequest data = .ok req)
    (hm : lookupMethod reg req.method = some h)
    (hc : h.call (bindParams h.wantsContext ctx req.params) = .a2aError code msg dat) :
    processSingleRequest reg ctx data
      = errorEnvelope .bad_request ("[" ++ toString code ++ "] " ++ msg)
          "Check your request parameters and try again" := by
  unfold processSingleRequest
  simp only [hp, hm, hc]

theorem processSingleRequest_exn (reg : Registry) (ctx : A2ARequestContext)
    (data : Json) (req : A2ARequest) (h : Handler) (e : String)
    (hp : parseA2ARequest data = .ok req)
    (hm : lookupMethod reg req.method = some h)
    (hc : h.call (bindParams h.wantsContext ctx req.params) = .exn e) :
    processSingleRequest reg ctx data
      = errorEnvelope .internal_error ("Error executing " ++ req.method)
          "Please try again later" := by
  unfold processSingleRequest
  simp only [hp, hm, hc]

def IsEnvelope (j : Json) : Prop :=
  (∃ d, j = successEnvelope d) ∨ ∃ t m s, j = errorEnvelope t m s

def WellFormedOutput (j : Json) : Prop :=
  IsEnvelope j ∨ ∃ rs, j = Json.arr rs ∧ ∀ r ∈ rs, IsEnvelope r

theorem processSingleRequest_isEnvelope (reg : Registry) (ctx : A2ARequestContext)
    (data : Json) : IsEnvelope (processSingleRequest reg ctx data) := by
  unfold processSingleRequest
  split
  · exact Or.inr ⟨_, _, _, rfl⟩
  · split
    · exact Or.inr ⟨_, _, _, rfl⟩
    · split
      · exact Or.inl ⟨_, rfl⟩
      · exact Or.inr ⟨_, _, _, rfl⟩
      · exact Or.inr ⟨_, _, _, rfl⟩

theorem unwrapSingleton_wellFormed (l : List Json) (h : ∀ r ∈ l, IsEnvelope r) :
    WellFormedOutput (unwrapSingleton l) := by
  match l with
  | [] => exact Or.inr ⟨[], rfl, by simp⟩
  | [r] => exact Or.inl (h r (by simp))
  | a :: b :: t => exact Or.inr ⟨a :: b :: t, rfl, h⟩

theorem handleRequest_value_falsy (reg : Registry) (ctx : A2ARequestContext)
    (body : Json) (hb : body.falsy = true) :
    handleRequest reg ctx (.value body)
      = errorEnvelope .internal_error "An error occurred while processing your request"
          "Please try again later" := by
  simp only [handleRequest]
  rw [if_pos hb]

theorem handleRequest_value_not_falsy (reg : Registry) (ctx : A2ARequestContext)
    (body : Json) (hb : body.falsy = false) :
    handleRequest reg ctx (.value body)
      = (match body with
         | .arr items => unwrapSingleton (items.map (processSingleRequest reg ctx))
         | _ => processSingleRequest reg ctx body) := by
  simp only [handleRequest]
  rw [if_neg (by simp [hb])]
  cases body <;> rfl

theorem handleRequest_wellFormed (reg : Registry) (ctx : A2ARequestContext)
    (raw : RawBody) : WellFormedOutput (handleRequest reg ctx raw) := by
  cases raw with
  | decodeError => exact Or.inl (Or.inr ⟨_, _, _, rfl⟩)
  | value body =>
    cases hb : body.falsy with
    | true =>
      rw [handleRequest_value_falsy reg ctx body hb]
      exact Or.inl (Or.inr ⟨_, _, _, rfl⟩)
    | false =>
      rw [handleRequest_value_not_falsy reg ctx body hb]
      cases body with
      | arr items =>
        refine unwrapSingleton_wellFormed _ ?_
        intro r hr
        simp only [List.mem_map] at hr
        obtain ⟨a, _, rfl⟩ := hr
        exact processSingleRequest_isEnvelope reg ctx a
      | null => exact Or.inl (processSingleRequest_isEnvelope reg ctx _)
      | bool b => exact Or.inl (processSingleRequest_isEnvelope reg ctx _)
      | num n => exact Or.inl (processSingleRequest_isEnvelope reg ctx _)
      | str s => exact Or.inl (processSingleRequest_isEnvelope reg ctx _)
      | obj members => exact Or.inl (processSingleRequest_isEnvelope reg ctx _)

theorem fieldIdNotif_nonnull (kvs : List (String × Json)) (v : Json)
    (hid : Json.lookupKey kvs "id" = some v) (hnn : v ≠ Json.null) :
    fieldIdNotif kvs = .error "id: Input should be None" := by
  unfold fieldIdNotif
  rw [hid]
  cases v
  · exact absurd rfl hnn
  all_goals rfl

theorem parseA2ANotification_nonnull_id (kvs : List (String × Json)) (v : Json)
    (hid : Json.lookupKey kvs "id" = some v) (hnn : v ≠ Json.null) :
    parseA2ANotification (.obj kvs) = .error "id: Input should be None" := by
  simp only [parseA2ANotification]
  rw [fieldIdNotif_nonnull kvs v hid hnn]

/-- The spec's end-to-end example request:
`{"jsonrpc":"2.0","method":"echo","params":{"message":"hi"},"id":1}`. -/
def echoExampleRequest : Json :=
  .obj [("jsonrpc", .str "2.0"), ("method", .str "echo"),
        ("params", .obj [("message", .str "hi")]), ("id", .num 1)]

/-- C1: for every registered method `m` and params `p` valid for `m`'s
handler (the bound arguments make the handler return `r`), dispatching
the unit `{jsonrpc: "2.0", method: m, params: p, id: x}` returns
`{"success": true, "data": {"jsonrpc": "2.0", "id": x, "result": r}}`
with the envelope's id equal to the request's id `x`; in particular the
echo example with `{"message": "hi"}` and id 1 yields
`{"success":true,"data":{"jsonrpc":"2.0","id":1,"result":{"echo":"hi","length":2}}}`. -/
theorem dispatch_registered_method_success (reg : Registry) (ctx : A2ARequestContext)
    (m : String) (h : Handler) (p : Option ReqParams) (x : RpcId) (r : Json)
    (hm : lookupMethod reg m = some h)
    (hr : h.call (bindParams h.wantsContext ctx p) = .ok r) :
    processSingleRequest reg ctx (requestJson m p x)
      = successEnvelope (.obj [("jsonrpc", .str "2.0"), ("id", x.toJson), ("result", r)])
    ∧ handleRequest coreRegistry defaultCtx (.value echoExampleRequest)
      = successEnvelope (.obj [("jsonrpc", .str "2.0"), ("id", .num 1),
          ("result", .obj [("echo", .str "hi"), ("length", .num 2)])]) :=
  ⟨processSingleRequest_ok reg ctx (requestJson m p x) ⟨"2.0", m, p, x⟩ h r
      (parse_requestJson m p x) hm hr,
   rfl⟩

/-- Witness for C1 at the echo handler, message `"hi"`, id 1. -/
theorem dispatch_registered_method_success_witness :
    processSingleRequest coreRegistry defaultCtx
        (requestJson "echo" (some (.named [("message", .str "hi")])) (.intId 1))
      = successEnvelope (.obj [("jsonrpc", .str "2.0"), ("id", .num 1),
          ("result", .obj [("echo", .str "hi"), ("length", .num 2)])]) :=
  (dispatch_registered_method_success coreRegistry defaultCtx "echo" echoHandler
      (some (.named [("message", .str "hi")])) (.intId 1)
      (.obj [("echo", .str "hi"), ("length", .num 2)]) rfl rfl).1

/-- C2: a request-mode batch is processed unit by unit in input order and
independently (the output entries are exactly the map of the dispatcher
over the input units); a batch producing exactly one result returns that
result unwrapped, a batch of more than one unit returns the ordered
array of all results. -/
theorem batch_order_and_singleton_unwrap (reg : Registry) (ctx : A2ARequestContext)
    (items : List Json) :
    (∀ a, items = [a] →
      handleRequest reg ctx (.value (.arr items)) = processSingleRequest reg ctx a)
    ∧ (1 < items.length →
      handleRequest reg ctx (.value (.arr items))
        = .arr (items.map (processSingleRequest reg ctx))) := by
  constructor
  · rintro a rfl
    rfl
  · intro hlen
    cases items with
    | nil => simp at hlen
    | cons a t =>
      cases t with
      | nil => simp at hlen
      | cons b t2 => rfl

/-- Witness for C2: a singleton echo batch collapses to a single
envelope, a two-element batch returns the ordered array of both. -/
theorem batch_order_and_singleton_unwrap_witness :
    handleRequest coreRegistry defaultCtx (.value (.arr [echoExampleRequest]))
      = processSingleRequest coreRegistry defaultCtx echoExampleRequest
    ∧ handleRequest coreRegistry defaultCtx
        (.value (.arr [echoExampleRequest, echoExampleRequest]))
      = .arr ([echoExampleRequest, echoExampleRequest].map
          (processSingleRequest coreRegistry defaultCtx)) :=
  ⟨(batch_order_and_singleton_unwrap coreRegistry defaultCtx [echoExampleRequest]).1
      echoExampleRequest rfl,
   (batch_order_and_singleton_unwrap coreRegistry defaultCtx
      [echoExampleRequest, echoExampleRequest]).2 (by decide)⟩

/-- A request unit `{"jsonrpc":"2.0","method":"echo","params":{"message":"a"},"id":1}`. -/
def echoUnitA : Json :=
  .obj [("jsonrpc", .str "2.0"), ("method", .str "echo"),
        ("params", .obj [("message", .str "a")]), ("id", .num 1)]

/-- A notification unit (no `id` member): `{"jsonrpc":"2.0","method":"ping"}`. -/
def pingNotifUnit : Json :=
  .obj [("jsonrpc", .str "2.0"), ("method", .str "ping")]

/-- The success envelope the echo unit produces. -/
def envEchoA : Json :=
  successEnvelope (.obj [("jsonrpc", .str "2.0"), ("id", .num 1),
    ("result", .obj [("echo", .str "a"), ("length", .num 1)])])

/-- The envelope the id-less ping unit produces in request mode: a full
response whose `id` is `null`. -/
def envPingNull : Json :=
  successEnvelope (.obj [("jsonrpc", .str "2.0"), ("id", .null),
    ("result", .obj [("status", .str "pong"), ("timestamp", .str "2024-01-01T00:00:00Z"),
                     ("agent", .str "AI Code Reviewer")])])

/-- Counterexample to C3: in the request-mode batch
`[echo request with id 1, ping notification without id]`, the
notification unit is not filtered out: the output is an array of TWO
envelopes, the second produced by the notification unit (with `id`
`null`), where the claim demands exactly one entry (the request's) and
none for the notification. -/
theorem mixed_batch_notification_contributes :
    handleRequest coreRegistry defaultCtx (.value (.arr [echoUnitA, pingNotifUnit]))
      = .arr [envEchoA, envPingNull]
    ∧ (handleRequest coreRegistry defaultCtx
        (.value (.arr [echoUnitA, pingNotifUnit]))).arrayLength = some 2 :=
  ⟨rfl, rfl⟩

/-- C3 as amended: in a request-mode batch every unit contributes exactly
one output entry, notification units (no id) included — `handle_request`
parses each unit as `A2ARequest` (whose id is optional) and appends one
result per unit, so nothing is filtered; order is preserved, and an
id-less unit contributes a response envelope with `id` `null`. -/
theorem batch_every_unit_contributes (reg : Registry) (ctx : A2ARequestContext)
    (items : List Json) (h2 : 2 ≤ items.length) :
    handleRequest reg ctx (.value (.arr items))
      = .arr (items.map (processSingleRequest reg ctx))
    ∧ (items.map (processSingleRequest reg ctx)).length = items.length
    ∧ handleRequest coreRegistry defaultCtx (.value (.arr [echoUnitA, pingNotifUnit]))
      = .arr [envEchoA, envPingNull] := by
  refine ⟨?_, List.length_map items _, rfl⟩
  cases items with
  | nil => simp at h2
  | cons a t =>
    cases t with
    | nil => simp at h2
    | cons b t2 => rfl

/-- Witness for C3's amended theorem at the mixed two-unit batch. -/
theorem batch_every_unit_contributes_witness :
    handleRequest coreRegistry defaultCtx (.value (.arr [echoUnitA, pingNotifUnit]))
      = .arr ([echoUnitA, pingNotifUnit].map (processSingleRequest coreRegistry defaultCtx)) :=
  (batch_every_unit_contributes coreRegistry defaultCtx [echoUnitA, pingNotifUnit]
    (by decide)).1

/-- C4: the outer error kind classification of request-mode dispatch:
a JSON decode failure of the raw payload maps to `bad_request`; an
unregistered method maps to `not_found` with a message naming the
method; a handler raising `A2AError` maps to `bad_request`; a handler
raising any other exception, and a unit that fails validation, map to
`internal_error`. -/
theorem error_kind_mapping (reg : Registry) (ctx : A2ARequestContext) :
    (handleRequest reg ctx .decodeError
      = errorEnvelope .bad_request "Invalid JSON in request body"
          "Please check your request body is valid JSON")
    ∧ (∀ data req, parseA2ARequest data = .ok req → lookupMethod reg req.method = none →
        processSingleRequest reg ctx data
          = errorEnvelope .not_found ("Method '" ++ req.method ++ "' not found")
              "Check the method name and try again")
    ∧ (∀ data req h code msg dat, parseA2ARequest data = .ok req →
        lookupMethod reg req.method = some h →
        h.call (bindParams h.wantsContext ctx req.params) = .a2aError code msg dat →
        ∃ m2 s2, processSingleRequest reg ctx data = errorEnvelope .bad_request m2 s2)
    ∧ (∀ data req h e, parseA2ARequest data = .ok req →
        lookupMethod reg req.method = some h →
        h.call (bindParams h.wantsContext ctx req.params) = .exn e →
        processSingleRequest reg ctx data
          = errorEnvelope .internal_error ("Error executing " ++ req.method)
              "Please try again later")
    ∧ (∀ data e, parseA2ARequest data = .error e →
        processSingleRequest reg ctx data
          = errorEnvelope .internal_error "An error occurred while processing your request"
              "Please try again later") :=
  ⟨rfl,
   fun data req hp hm => processSingleRequest_not_found reg ctx data req hp hm,
   fun data req h code msg dat hp hm hc =>
     ⟨_, _, processSingleRequest_a2aError reg ctx data req h code msg dat hp hm hc⟩,
   fun data req h e hp hm hc => processSingleRequest_exn reg ctx data req h e hp hm hc,
   fun data e hp => processSingleRequest_parse_error reg ctx data e hp⟩

/-- A request for the unregistered method `"nope"`:
`{"jsonrpc":"2.0","method":"nope","id":1}`. -/
def nopeRequest : Json :=
  .obj [("jsonrpc", .str "2.0"), ("method", .str "nope"), ("id", .num 1)]

/-- A request for `boomRegistry`'s method `"m"`, whose handler raises
`A2AError(7, "boom")`. -/
def boomRequest : Json :=
  .obj [("jsonrpc", .str "2.0"), ("method", .str "m"), ("id", .num 3)]

/-- An echo request with a wrong parameter name, so the handler raises
`TypeError`: `{"jsonrpc":"2.0","method":"echo","params":{"wrong":"x"},"id":1}`. -/
def echoBadRequest : Json :=
  .obj [("jsonrpc", .str "2.0"), ("method", .str "echo"),
        ("params", .obj [("wrong", .str "x")]), ("id", .num 1)]

/-- Witness for C4: each row of the mapping table at a concrete input. -/
theorem error_kind_mapping_witness :
    handleRequest coreRegistry defaultCtx .decodeError
      = errorEnvelope .bad_request "Invalid JSON in request body"
          "Please check your request body is valid JSON"
    ∧ processSingleRequest coreRegistry defaultCtx nopeRequest
      = errorEnvelope .not_found "Method 'nope' not found" "Check the method name and try again"
    ∧ (∃ m2 s2, processSingleRequest boomRegistry defaultCtx boomRequest
        = errorEnvelope .bad_request m2 s2)
    ∧ processSingleRequest coreRegistry defaultCtx echoBadRequest
      = errorEnvelope .internal_error "Error executing echo" "Please try again later"
    ∧ processSingleRequest coreRegistry defaultCtx (.str "junk")
      = errorEnvelope .internal_error "An error occurred while processing your request"
          "Please try again later" :=
  ⟨(error_kind_mapping coreRegistry defaultCtx).1,
   (error_kind_mapping coreRegistry defaultCtx).2.1 nopeRequest
     ⟨"2.0", "nope", none, .intId 1⟩ rfl rfl,
   (error_kind_mapping boomRegistry defaultCtx).2.2.1 boomRequest
     ⟨"2.0", "m", none, .intId 3⟩ boomHandler 7 "boom" .null rfl rfl rfl,
   (error_kind_mapping coreRegistry defaultCtx).2.2.2.1 echoBadRequest
     ⟨"2.0", "echo", some (.named [("wrong", .str "x")]), .intId 1⟩ echoHandler
     "TypeError" rfl rfl rfl,
   (error_kind_mapping coreRegistry defaultCtx).2.2.2.2 (.str "junk")
     "request data is not an object" rfl⟩

/-- Counterexample to C5: a handler raising `A2AError(7, "boom")` yields
a `bad_request` envelope whose message is `"[7] boom"` — the `str()` of
the exception, which `A2AError.__init__` sets to `"[code] message"` —
and not the protocol error's message `"boom"` as the claim states. -/
theorem a2aerror_message_not_preserved :
    handleRequest boomRegistry defaultCtx (.value boomRequest)
      = errorEnvelope .bad_request "[7] boom" "Check your request parameters and try again"
    ∧ ("[7] boom" : String) ≠ "boom" :=
  ⟨rfl, by decide⟩

/-- C5 as amended: a handler raising `A2AError` with code `c` and
message `s` yields a `bad_request` envelope whose message is the
exception's `str()`, namely `"[c] s"` (the bracketed numeric code
prefixed to the protocol error's message). -/
theorem a2aerror_bracketed_message (reg : Registry) (ctx : A2ARequestContext)
    (data : Json) (req : A2ARequest) (h : Handler) (code : Int) (msg : String) (dat : Json)
    (hp : parseA2ARequest data = .ok req)
    (hm : lookupMethod reg req.method = some h)
    (hc : h.call (bindParams h.wantsContext ctx req.params) = .a2aError code msg dat) :
    processSingleRequest reg ctx data
      = errorEnvelope .bad_request ("[" ++ toString code ++ "] " ++ msg)
          "Check your request parameters and try again" :=
  processSingleRequest_a2aError reg ctx data req h code msg dat hp hm hc

/-- Witness for C5's amended theorem at `boomRegistry` and code 7,
message `"boom"`. -/
theorem a2aerror_bracketed_message_witness :
    processSingleRequest boomRegistry defaultCtx boomRequest
      = errorEnvelope .bad_request "[7] boom" "Check your request parameters and try again" :=
  a2aerror_bracketed_message boomRegistry defaultCtx boomRequest
    ⟨"2.0", "m", none, .intId 3⟩ boomHandler 7 "boom" .null rfl rfl rfl

/-- Counterexample to C6: dispatching the unregistered method `"nope"`
does produce a `not_found` failure, but the envelope's `error` member is
the full dumped `ErrorResponse` — `{"success": false, "error": {"type":
..., "message": ..., "suggestion": ...}, "meta": {}}` — not the claimed
flat `{"kind": ..., "message": ..., "suggestion": ...}` object: the
`error` member has no `"kind"` key and no `"message"` key (the kind sits
under `"type"` one level deeper). -/
theorem error_envelope_not_flat :
    handleRequest coreRegistry defaultCtx (.value nopeRequest)
      = .obj [("success", .bool false),
              ("error", .obj [("success", .bool false),
                              ("error", .obj [("type", .str "not_found"),
                                              ("message", .str "Method 'nope' not found"),
                                              ("suggestion", .str "Check the method name and try again")]),
                              ("meta", .obj [])])]
    ∧ (((handleRequest coreRegistry defaultCtx (.value nopeRequest)).getKey "error").getD
        .null).getKey "kind" = none
    ∧ (((handleRequest coreRegistry defaultCtx (.value nopeRequest)).getKey "error").getD
        .null).getKey "message" = none :=
  ⟨rfl, rfl, rfl⟩

/-- C6 as amended: every dispatcher error response has the shape
`{"success": false, "error": E}` where `E` is the dumped `ErrorResponse`
`{"success": false, "error": {"type": <ErrorKind>, "message": <str>,
"suggestion": <str>}, "meta": {}}` (kind under the key `"type"`, nested
one level deeper than the claim states); in particular the `"nope"`
request yields that shape with kind `"not_found"` and message
`"Method 'nope' not found"`. -/
theorem error_envelope_actual_shape (t : ErrorType) (m s : String) :
    errorEnvelope t m s
      = .obj [("success", .bool false),
              ("error", .obj [("success", .bool false),
                              ("error", .obj [("type", .str t.toStr),
                                              ("message", .str m),
                                              ("suggestion", .str s)]),
                              ("meta", .obj [])])]
    ∧ handleRequest coreRegistry defaultCtx (.value nopeRequest)
      = errorEnvelope .not_found "Method 'nope' not found"
          "Check the method name and try again" :=
  ⟨rfl, rfl⟩

/-- Counterexample to C7: the empty request-mode payload `{}` yields an
`internal_error` envelope with the generic message, not `bad_request`
with "empty request body": the `ValueError("Empty request body")` raised
at line 73 is caught by the generic `except Exception` (line 94), which
reports kind `internal_error` and a generic message. -/
theorem empty_payload_not_bad_request :
    handleRequest coreRegistry defaultCtx (.value (.obj []))
      = errorEnvelope .internal_error "An error occurred while processing your request"
          "Please try again later"
    ∧ ErrorType.internal_error ≠ ErrorType.bad_request
    ∧ ("An error occurred while processing your request" : String) ≠ "empty request body" :=
  ⟨rfl, by decide, by decide⟩

/-- C7 as amended: for every empty (falsy) decoded payload, request mode
returns an `internal_error` envelope with the generic message "An error
occurred while processing your request" (the raised
`ValueError("Empty request body")` is swallowed by the generic exception
mapper); notification mode logs the warning "Received empty
notification" and returns silently with no handler invoked. -/
theorem empty_payload_behavior (reg : Registry) (ctx : A2ARequestContext)
    (body : Json) (hb : body.falsy = true) :
    handleRequest reg ctx (.value body)
      = errorEnvelope .internal_error "An error occurred while processing your request"
          "Please try again later"
    ∧ handleNotification reg ctx (.value body)
      = ⟨[.warning "Received empty notification"], []⟩ := by
  refine ⟨handleRequest_value_falsy reg ctx body hb, ?_⟩
  simp only [handleNotification]
  rw [if_pos hb]

/-- Witness for C7's amended theorem at the empty object `{}`. -/
theorem empty_payload_behavior_witness :
    handleRequest coreRegistry defaultCtx (.value (.obj []))
      = errorEnvelope .internal_error "An error occurred while processing your request"
          "Please try again later"
    ∧ handleNotification coreRegistry defaultCtx (.value (.obj []))
      = ⟨[.warning "Received empty notification"], []⟩ :=
  empty_payload_behavior coreRegistry defaultCtx (.obj []) rfl

/-- A structurally invalid request unit: the required `method` field is
missing (`{"jsonrpc":"2.0","id":1}`). -/
def missingMethodUnit : Json :=
  .obj [("jsonrpc", .str "2.0"), ("id", .num 1)]

/-- Counterexample to C8: a unit that fails structural validation (no
`method` field) yields kind `internal_error` with the generic message
"An error occurred while processing your request", not `bad_request`
with a message naming the structural problem: the pydantic
`ValidationError` is caught by the outermost generic `except Exception`
of `_process_single_request` (line 174). -/
theorem malformed_unit_not_bad_request :
    handleRequest coreRegistry defaultCtx (.value missingMethodUnit)
      = errorEnvelope .internal_error "An error occurred while processing your request"
          "Please try again later"
    ∧ ErrorType.internal_error ≠ ErrorType.bad_request :=
  ⟨rfl, by decide⟩

/-- C8 as amended: every request-mode unit failing structural validation
against the Request shape yields an `internal_error` envelope with the
generic message (naming nothing about the structural problem); no
unhandled failure reaches the transport layer — the dispatcher returns
this envelope value. -/
theorem malformed_unit_internal_error (reg : Registry) (ctx : A2ARequestContext)
    (data : Json) (e : String) (hp : parseA2ARequest data = .error e) :
    processSingleRequest reg ctx data
      = errorEnvelope .internal_error "An error occurred while processing your request"
          "Please try again later" :=
  processSingleRequest_parse_error reg ctx data e hp

/-- Witness for C8's amended theorem at the unit missing `method`. -/
theorem malformed_unit_internal_error_witness :
    processSingleRequest coreRegistry defaultCtx missingMethodUnit
      = errorEnvelope .internal_error "An error occurred while processing your request"
          "Please try again later" :=
  malformed_unit_internal_error coreRegistry defaultCtx missingMethodUnit
    "method: Field required" rfl

/-- C9: for every request-mode input — any raw payload, any registry,
and handlers that may raise arbitrary exceptions — `handle_request`
returns a well-formed envelope value (a success or error envelope, or an
array of such envelopes for a batch) and never propagates an exception;
in particular a unit whose validation throws, and a handler that throws
unexpectedly, both resolve to a well-formed `internal_error` envelope. -/
theorem request_mode_never_raises (reg : Registry) (ctx : A2ARequestContext)
    (raw : RawBody) :
    WellFormedOutput (handleRequest reg ctx raw)
    ∧ (∀ data e, parseA2ARequest data = .error e →
        ∃ m s, processSingleRequest reg ctx data = errorEnvelope .internal_error m s)
    ∧ (∀ data req h e, parseA2ARequest data = .ok req →
        lookupMethod reg req.method = some h →
        h.call (bindParams h.wantsContext ctx req.params) = .exn e →
        ∃ m s, processSingleRequest reg ctx data = errorEnvelope .internal_error m s) :=
  ⟨handleRequest_wellFormed reg ctx raw,
   fun data e hp => ⟨_, _, processSingleRequest_parse_error reg ctx data e hp⟩,
   fun data req h e hp hm hc => ⟨_, _, processSingleRequest_exn reg ctx data req h e hp hm hc⟩⟩

/-- Witness for C9 at a throwing-validation unit and a throwing handler. -/
theorem request_mode_never_raises_witness :
    WellFormedOutput (handleRequest coreRegistry defaultCtx (.value echoExampleRequest))
    ∧ (∃ m s, processSingleRequest coreRegistry defaultCtx (.str "junk")
        = errorEnvelope .internal_error m s)
    ∧ (∃ m s, processSingleRequest coreRegistry defaultCtx echoBadRequest
        = errorEnvelope .internal_error m s) :=
  ⟨(request_mode_never_raises coreRegistry defaultCtx (.value echoExampleRequest)).1,
   (request_mode_never_raises coreRegistry defaultCtx (.value echoExampleRequest)).2.1
     (.str "junk") "request data is not an object" rfl,
   (request_mode_never_raises coreRegistry defaultCtx (.value echoExampleRequest)).2.2
     echoBadRequest ⟨"2.0", "echo", some (.named [("wrong", .str "x")]), .intId 1⟩
     echoHandler "TypeError" rfl rfl rfl⟩

/-- C10: in notification mode, a payload unit carrying a non-null `id`
never reaches any handler: `A2ANotification` admits only an absent or
null id, so the unit fails validation, the failure is logged via
`logger.exception` and swallowed, no handler is invoked, and
`handle_notification` still returns without raising. -/
theorem notification_nonnull_id_never_dispatched (reg : Registry)
    (ctx : A2ARequestContext) (kvs : List (String × Json)) (v : Json)
    (hid : Json.lookupKey kvs "id" = some v) (hnn : v ≠ Json.null) :
    parseA2ANotification (.obj kvs) = .error "id: Input should be None"
    ∧ processSingleNotification reg ctx (.obj kvs)
      = ⟨[.exception "Error processing notification: id: Input should be None"], []⟩
    ∧ handleNotification reg ctx (.value (.obj kvs))
      = ⟨[.exception "Error processing notification: id: Input should be None"], []⟩ := by
  have hp := parseA2ANotification_nonnull_id kvs v hid hnn
  have hproc : processSingleNotification reg ctx (.obj kvs)
      = ⟨[.exception "Error processing notification: id: Input should be None"], []⟩ := by
    simp only [processSingleNotification]
    rw [hp]
    rfl
  have hfal : Json.falsy (.obj kvs) = false := by
    cases kvs with
    | nil => simp [Json.lookupKey] at hid
    | cons a t => rfl
  refine ⟨hp, hproc, ?_⟩
  simp only [handleNotification]
  rw [if_neg (by simp [hfal])]
  exact hproc

/-- Witness for C10 at `{"method": "ping", "id": 1}`. -/
theorem notification_nonnull_id_never_dispatched_witness :
    parseA2ANotification (.obj [("method", .str "ping"), ("id", .num 1)])
      = .error "id: Input should be None"
    ∧ processSingleNotification coreRegistry defaultCtx
        (.obj [("method", .str "ping"), ("id", .num 1)])
      = ⟨[.exception "Error processing notification: id: Input should be None"], []⟩
    ∧ handleNotification coreRegistry defaultCtx
        (.value (.obj [("method", .str "ping"), ("id", .num 1)]))
      = ⟨[.exception "Error processing notification: id: Input should be None"], []⟩ :=
  notification_nonnull_id_never_dispatched coreRegistry defaultCtx
    [("method", .str "ping"), ("id", .num 1)] (.num 1) rfl
    (fun h => Json.noConfusion h)

/-- Witness for C6's amended theorem at kind `not_found` and the
`"nope"` example's message and suggestion. -/
theorem error_envelope_actual_shape_witness :
    errorEnvelope .not_found "Method 'nope' not found" "Check the method name and try again"
      = .obj [("success", .bool false),
              ("error", .obj [("success", .bool false),
                              ("error", .obj [("type", .str "not_found"),
                                              ("message", .str "Method 'nope' not found"),
                                              ("suggestion", .str "Check the method name and try again")]),
                              ("meta", .obj [])])] :=
  (error_envelope_actual_shape .not_found "Method 'nope' not found"
    "Check the method name and try again").1
